import Mathlib

/-!
Verification of the Expiry Alert Generation & Dual-Store Synchronization
Engine of the Smart Expiry and Donation Management System.

The definitions below are a shallow embedding of `backend/app/tasks.py`
(class `ExpiryChecker`) and of the schema in `backend/app/models.py`.
Calendar days are modelled as integers (`today` is a parameter); the
MySQL store is a list of `Alert` rows plus an autoincrement counter; the
MongoDB store is a list of `MongoAlertDoc` documents together with two
booleans: `mongo_present` (the `self.mongo is None` capability check)
and `mongo_ok` (whether an attempted operation succeeds; a failing
operation raises and is caught exactly where the Python code catches it).
Primary-store insert failures are modelled by an oracle
`primary_fail : Nat → Bool` indexed by item id: `create_mysql_alert`
raising for that item, caught by the per-item `except` in
`generate_alerts`.
-/

namespace SmartExpiry

/-- Inventory item row (`models.Item`), restricted to the fields the
engine reads: id, name, quantity, expiry date, and the denormalized
category and donor names used by the Mongo snapshot. -/
structure Item where
  item_id : Nat
  name : String
  quantity : Nat
  expiry_date : Int
  category_name : String
  donor_name : String
deriving DecidableEq

/-- `Item.days_until_expiry` (models.py lines 73-79): difference between
the expiry date and today, possibly negative. -/
def days_until_expiry (today : Int) (item : Item) : Int :=
  item.expiry_date - today

/-- Alert row (`models.Alert`, models.py lines 157-179): id, item
reference, message, calendar alert date, severity string, acknowledged
flag. -/
structure Alert where
  alert_id : Nat
  item_id : Nat
  message : String
  alert_date : Int
  severity : String
  is_acknowledged : Bool
deriving DecidableEq

/-- MongoDB history document built by `ExpiryChecker.create_mongo_alert`
(tasks.py lines 140-156). -/
structure MongoAlertDoc where
  alert_id : Nat
  item_id : Nat
  item_name : String
  message : String
  alert_date : Int
  severity : String
  days_until_expiry : Int
  quantity : Nat
  category_name : String
  donor_name : String
  expiry_date : Int
  is_acknowledged : Bool
deriving DecidableEq

/-- `settings.EXPIRY_CHECK_DAYS` (config.py line 32). -/
def EXPIRY_CHECK_DAYS : Int := 30

/-- Authoritative relational store: inventory, alert rows, and the
autoincrement counter for `alert_id`. -/
structure MySQLState where
  items : List Item
  alerts : List Alert
  next_alert_id : Nat

/-- `ExpiryChecker.calculate_severity` (tasks.py lines 58-75). -/
def calculate_severity (days : Int) : String :=
  if days ≤ 3 then "CRITICAL"
  else if days ≤ 7 then "HIGH"
  else if days ≤ 14 then "MEDIUM"
  else "LOW"

/-- `ExpiryChecker.get_expiring_items` (tasks.py lines 35-56): items with
`expiry_date ≤ today + threshold`, `expiry_date ≥ today`, `quantity > 0`.
A `none` threshold defaults to `EXPIRY_CHECK_DAYS`. Read-only: it
returns a sublist of the inventory and modifies no store. -/
def get_expiring_items (today : Int) (days_threshold : Option Int)
    (items : List Item) : List Item :=
  let dt := days_threshold.getD EXPIRY_CHECK_DAYS
  let threshold_date := today + dt
  items.filter (fun it =>
    decide (it.expiry_date ≤ threshold_date) &&
    decide (today ≤ it.expiry_date) &&
    decide (0 < it.quantity))

/-- `ExpiryChecker.alert_exists_today` (tasks.py lines 77-92): true iff
some alert row has this item id and today's date. -/
def alert_exists_today (alerts : List Alert) (today : Int) (iid : Nat) : Bool :=
  alerts.any (fun a => a.item_id == iid && a.alert_date == today)

/-- The alert message built by `create_mysql_alert` (tasks.py 107-111). -/
def alert_message (item : Item) (days_remaining : Int) : String :=
  "Item \x27" ++ item.name ++ "\x27 (ID: " ++ toString item.item_id ++
    ") expires in " ++ toString days_remaining ++
    " days. Current quantity: " ++ toString item.quantity ++
    ". Action required: Prioritize for donation."

/-- `ExpiryChecker.create_mysql_alert` (tasks.py lines 94-124): builds
the row and commits it (append to the table, bump the autoincrement).
Returns the created alert together with the updated table and counter.
No uniqueness check happens here: the schema declares none. -/
def create_mysql_alert (today : Int) (item : Item) (alerts : List Alert)
    (next_id : Nat) : Alert × List Alert × Nat :=
  let d := days_until_expiry today item
  let alert : Alert :=
    { alert_id := next_id, item_id := item.item_id,
      message := alert_message item d, alert_date := today,
      severity := calculate_severity d, is_acknowledged := false }
  (alert, alerts ++ [alert], next_id + 1)

/-- The document body of `create_mongo_alert` (tasks.py lines 140-156). -/
def mongo_alert_document (item : Item) (alert : Alert) (today : Int) :
    MongoAlertDoc :=
  { alert_id := alert.alert_id, item_id := item.item_id,
    item_name := item.name, message := alert.message,
    alert_date := alert.alert_date, severity := alert.severity,
    days_until_expiry := days_until_expiry today item,
    quantity := item.quantity, category_name := item.category_name,
    donor_name := item.donor_name, expiry_date := item.expiry_date,
    is_acknowledged := false }

/-- `ExpiryChecker.create_mongo_alert` (tasks.py lines 126-164): returns
`none` without any I/O when the Mongo handle is `None`
(`mongo_present = false`); otherwise attempts the insert, and on failure
(`mongo_ok = false`) catches the exception internally and returns
`none`, leaving the document store unchanged. -/
def create_mongo_alert (mongo_present mongo_ok : Bool) (today : Int)
    (item : Item) (alert : Alert) (docs : List MongoAlertDoc) :
    Option MongoAlertDoc × List MongoAlertDoc :=
  if mongo_present then
    let document := mongo_alert_document item alert today
    if mongo_ok then (some document, docs ++ [document])
    else (none, docs)
  else (none, docs)

/-- Mutable state carried through the `generate_alerts` loop: the two
stores and the three local counters of tasks.py lines 179-181. -/
structure RunState where
  alerts : List Alert
  next_alert_id : Nat
  mongo_docs : List MongoAlertDoc
  mysql_alerts_created : Nat
  mongo_alerts_created : Nat
  skipped : Nat
deriving DecidableEq

/-- One iteration of the `for item in expiring_items` loop of
`generate_alerts` (tasks.py lines 183-202). If today's alert already
exists the item is skipped; otherwise the body runs under `try`: a
primary-store failure (`primary_fail`) raises inside
`create_mysql_alert`, is caught, and leaves state and counters
unchanged; on success the row is committed, `mysql_alerts_created`
increments, `create_mongo_alert` runs, and `mongo_alerts_created`
increments unconditionally — the code never inspects the returned
`None`. -/
def process_item (today : Int) (primary_fail : Nat → Bool)
    (mongo_present mongo_ok : Bool) (st : RunState) (item : Item) :
    RunState :=
  if alert_exists_today st.alerts today item.item_id then
    { st with skipped := st.skipped + 1 }
  else if primary_fail item.item_id then
    st
  else
    let r := create_mysql_alert today item st.alerts st.next_alert_id
    let m := create_mongo_alert mongo_present mongo_ok today item r.1
      st.mongo_docs
    { alerts := r.2.1, next_alert_id := r.2.2, mongo_docs := m.2,
      mysql_alerts_created := st.mysql_alerts_created + 1,
      mongo_alerts_created := st.mongo_alerts_created + 1,
      skipped := st.skipped }

/-- The whole loop of tasks.py lines 183-202, iterating `process_item`. -/
def process_items (today : Int) (primary_fail : Nat → Bool)
    (mongo_present mongo_ok : Bool) : List Item → RunState → RunState
  | [], st => st
  | item :: rest, st =>
      process_items today primary_fail mongo_present mongo_ok rest
        (process_item today primary_fail mongo_present mongo_ok st item)

/-- The statistics record returned by `generate_alerts`
(tasks.py lines 204-210), minus the wall-clock timestamp string. -/
structure GenStats where
  checked_items : Nat
  mysql_alerts_created : Nat
  mongo_alerts_created : Nat
  skipped : Nat
deriving DecidableEq

/-- The keys of the result dictionary literal built at tasks.py lines
204-210, in source order. -/
def generate_alerts_result_keys : List String :=
  ["checked_items", "mysql_alerts_created", "mongo_alerts_created",
   "skipped", "timestamp"]

/-- `ExpiryChecker.generate_alerts` (tasks.py lines 166-213): scan,
loop, and the statistics dictionary. Returns the statistics, the
updated relational store and the updated document store. -/
def generate_alerts (today : Int) (days_threshold : Option Int)
    (primary_fail : Nat → Bool) (mongo_present mongo_ok : Bool)
    (db : MySQLState) (mongo_docs : List MongoAlertDoc) :
    GenStats × MySQLState × List MongoAlertDoc :=
  let expiring_items := get_expiring_items today days_threshold db.items
  let st0 : RunState :=
    { alerts := db.alerts, next_alert_id := db.next_alert_id,
      mongo_docs := mongo_docs, mysql_alerts_created := 0,
      mongo_alerts_created := 0, skipped := 0 }
  let stf := process_items today primary_fail mongo_present mongo_ok
    expiring_items st0
  ({ checked_items := expiring_items.length,
     mysql_alerts_created := stf.mysql_alerts_created,
     mongo_alerts_created := stf.mongo_alerts_created,
     skipped := stf.skipped },
   { db with alerts := stf.alerts, next_alert_id := stf.next_alert_id },
   stf.mongo_docs)

/-- Session state for `acknowledge_alert`: the committed relational
rows, the pending (in-session) rows, and the Mongo documents.
`commit` copies pending over committed; `rollback` copies committed
over pending — data committed earlier is never undone by a rollback. -/
structure AckState where
  committed_alerts : List Alert
  pending_alerts : List Alert
  mongo_docs : List MongoAlertDoc
deriving DecidableEq

/-- SQLAlchemy `query(...).first()` followed by setting
`is_acknowledged = True`: mutates the first row matching the id and
leaves the rest untouched (`alert_id` is the primary key, so at most
one row matches in any real table). -/
def set_acknowledged_first : List Alert → Nat → List Alert
  | [], _ => []
  | a :: rest, aid =>
      if a.alert_id == aid then
        { a with is_acknowledged := true } :: rest
      else a :: set_acknowledged_first rest aid

/-- `mongo.alerts.update_many({alert_id: aid}, {$set: {is_acknowledged:
true}})` (tasks.py lines 250-253): flips the flag on every document
whose correlation key matches, duplicates included. -/
def mongo_update_many_ack (docs : List MongoAlertDoc) (aid : Nat) :
    List MongoAlertDoc :=
  docs.map (fun d =>
    if d.alert_id == aid then { d with is_acknowledged := true } else d)

/-- `ExpiryChecker.acknowledge_alert` (tasks.py lines 229-262). Looks up
the alert; if absent returns `false`. If present, sets the flag and
commits, then attempts the Mongo `update_many`. When the Mongo handle
is `None` (`mongo_present = false`) the attribute access raises, and
when the update itself fails (`mongo_ok = false`) the call raises; both
land in the `except` clause, which rolls the session back (a no-op on
the already-committed rows) and returns `false`. On Mongo success it
returns `true`. -/
def acknowledge_alert (mongo_present mongo_ok : Bool) (aid : Nat)
    (st : AckState) : Bool × AckState :=
  match st.pending_alerts.find? (fun a => a.alert_id == aid) with
  | some _ =>
      let pending := set_acknowledged_first st.pending_alerts aid
      let committed := pending
      if mongo_present && mongo_ok then
        (true, { committed_alerts := committed, pending_alerts := pending,
                 mongo_docs := mongo_update_many_ack st.mongo_docs aid })
      else
        (false, { committed_alerts := committed,
                  pending_alerts := committed,
                  mongo_docs := st.mongo_docs })
  | none => (false, st)

/-- The unique constraints declared on the `Alert` table in models.py
(lines 157-179), each as its column list. The class body declares no
`__table_args__` at all — the only constraints in the whole schema are
check constraints on `Item.quantity` and `Donation.quantity` and
column-level `unique=True` on `Donor.contact` and `Receiver.contact` —
so the list for `Alert` is empty: in particular there is no
`UniqueConstraint` on `(item_id, alert_date)`. -/
def alert_table_unique_constraints : List (List String) := []

/-- Number of alert rows for one (item id, alert date) pair. -/
def pair_count (alerts : List Alert) (iid : Nat) (d : Int) : Nat :=
  (alerts.filter (fun a => a.item_id == iid && a.alert_date == d)).length

end SmartExpiry

namespace SmartExpiry

/-- Appending a row to the alert table preserves any positive
`alert_exists_today` answer. -/
theorem alert_exists_today_append (l : List Alert) (a : Alert) (t : Int)
    (x : Nat) (h : alert_exists_today l t x = true) :
    alert_exists_today (l ++ [a]) t x = true := by
  unfold alert_exists_today at h ⊢
  rw [List.any_append, h, Bool.true_or]

/-- One loop iteration never deletes alert rows: an existing
(item, today) alert still exists afterwards. -/
theorem process_item_exists_mono (today : Int) (pf : Nat → Bool)
    (mp mo : Bool) (st : RunState) (i : Item) (x : Nat)
    (h : alert_exists_today st.alerts today x = true) :
    alert_exists_today (process_item today pf mp mo st i).alerts today x
      = true := by
  unfold process_item
  split
  · exact h
  · split
    · exact h
    · simp only [create_mysql_alert]
      exact alert_exists_today_append _ _ _ _ h

/-- The whole loop never deletes alert rows. -/
theorem process_items_exists_mono (today : Int) (pf : Nat → Bool)
    (mp mo : Bool) (l : List Item) (st : RunState) (x : Nat)
    (h : alert_exists_today st.alerts today x = true) :
    alert_exists_today (process_items today pf mp mo l st).alerts today x
      = true := by
  induction l generalizing st with
  | nil => exact h
  | cons i rest ih =>
      exact ih _ (process_item_exists_mono today pf mp mo st i x h)

/-- After its own iteration, an item whose primary insert does not fail
has a (item, today) alert row: either one already existed (skip branch)
or the create branch just appended it. -/
theorem process_item_covers (today : Int) (pf : Nat → Bool) (mp mo : Bool)
    (st : RunState) (i : Item) (hpf : pf i.item_id = false) :
    alert_exists_today (process_item today pf mp mo st i).alerts today
      i.item_id = true := by
  cases hex : alert_exists_today st.alerts today i.item_id
  · unfold process_item
    rw [if_neg (by rw [hex]; exact Bool.false_ne_true),
      if_neg (by rw [hpf]; exact Bool.false_ne_true)]
    simp [create_mysql_alert, alert_exists_today, List.any_append]
  · unfold process_item
    rw [if_pos hex]
    exact hex

/-- Every item of the scanned list whose primary insert does not fail
ends the loop with an alert row for (its id, today), regardless of how
any other item in the batch behaves. -/
theorem process_items_covers (today : Int) (pf : Nat → Bool)
    (mp mo : Bool) (l : List Item) (st : RunState) :
    ∀ i ∈ l, pf i.item_id = false →
      alert_exists_today (process_items today pf mp mo l st).alerts today
        i.item_id = true := by
  induction l generalizing st with
  | nil => intro i hi; cases hi
  | cons j rest ih =>
      intro i hi hpf
      rcases List.mem_cons.mp hi with rfl | hi
      · exact process_items_exists_mono today pf mp mo rest _ _
          (process_item_covers today pf mp mo st i hpf)
      · exact ih _ i hi hpf

/-- Claim C7: processing is isolated per item — whatever the failure
oracle does on other items, every scanned item whose own primary insert
succeeds ends the batch with its alert row present — and the batch
always completes, returning statistics whose `checked_items` counts the
whole scanned list. -/
theorem c7_poison_isolation (today : Int) (dt : Option Int)
    (pf : Nat → Bool) (mp mo : Bool) (db : MySQLState)
    (docs : List MongoAlertDoc) :
    (generate_alerts today dt pf mp mo db docs).1.checked_items =
      (get_expiring_items today dt db.items).length
    ∧ ∀ i ∈ get_expiring_items today dt db.items, pf i.item_id = false →
        alert_exists_today
          (generate_alerts today dt pf mp mo db docs).2.1.alerts today
          i.item_id = true := by
  constructor
  · rfl
  · intro i hi hpf
    exact process_items_covers today pf mp mo _ _ i hi hpf

/-- A poisoned first item (its primary insert raises) and a healthy
second item, for the C7 witness. -/
def c7_poison_item : Item :=
  { item_id := 1, name := "Bad", quantity := 2, expiry_date := 1,
    category_name := "C", donor_name := "D" }

def c7_ok_item : Item :=
  { item_id := 2, name := "Good", quantity := 3, expiry_date := 2,
    category_name := "C", donor_name := "D" }

def c7_db : MySQLState :=
  { items := [c7_poison_item, c7_ok_item], alerts := [],
    next_alert_id := 1 }

def c7_fail : Nat → Bool := fun n => n == 1

/-- Witness for C7: with item 1 poisoned, item 2 still gets its alert. -/
theorem c7_witness :
    c7_ok_item ∈ get_expiring_items 0 (some 30) c7_db.items ∧
    c7_fail c7_ok_item.item_id = false ∧
    alert_exists_today
      (generate_alerts 0 (some 30) c7_fail true true c7_db []).2.1.alerts
      0 c7_ok_item.item_id = true :=
  ⟨by decide, by decide,
    (c7_poison_isolation 0 (some 30) c7_fail true true c7_db []).2
      c7_ok_item (by decide) (by decide)⟩

/-- Eligible item and initial store for the C1 failing input. -/
def c1_item : Item :=
  { item_id := 1, name := "Milk", quantity := 5, expiry_date := 2,
    category_name := "Dairy", donor_name := "Alice" }

def c1_db : MySQLState :=
  { items := [c1_item], alerts := [], next_alert_id := 1 }

/-- Claim C1 (code bug): run `generate_alerts` with the secondary store
absent for the whole run (`mongo_present = false`) over one eligible
item. The primary counter does count the item and nothing is written to
the document store, but `mongo_alerts_created` is reported as 1, not 0:
tasks.py line 196 increments it unconditionally even though
`create_mongo_alert` returned `None` without inserting anything. -/
theorem c1_mongo_unavailable_run_eval :
    (generate_alerts 0 (some 30) (fun _ => false) false false c1_db []).1
      = { checked_items := 1, mysql_alerts_created := 1,
          mongo_alerts_created := 1, skipped := 0 }
    ∧ (generate_alerts 0 (some 30) (fun _ => false) false false c1_db []).2.2
      = [] := by
  refine ⟨rfl, rfl⟩

/-- One iteration either leaves both created-counters alone (skip, or a
caught primary failure) or bumps both by one. -/
theorem process_item_counters (today : Int) (pf : Nat → Bool)
    (mp mo : Bool) (st : RunState) (i : Item) :
    ((process_item today pf mp mo st i).mysql_alerts_created =
        st.mysql_alerts_created ∧
      (process_item today pf mp mo st i).mongo_alerts_created =
        st.mongo_alerts_created) ∨
    ((process_item today pf mp mo st i).mysql_alerts_created =
        st.mysql_alerts_created + 1 ∧
      (process_item today pf mp mo st i).mongo_alerts_created =
        st.mongo_alerts_created + 1) := by
  unfold process_item
  split
  · exact Or.inl ⟨rfl, rfl⟩
  · split
    · exact Or.inl ⟨rfl, rfl⟩
    · exact Or.inr ⟨rfl, rfl⟩

/-- Supporting fact for C1: in any run the two created-counters move in
lockstep — `mongo_alerts_created` always advances exactly with
`mysql_alerts_created`, whatever the Mongo flags are, because the
increment at tasks.py line 196 never inspects the mirror's outcome. -/
theorem secondary_counter_tracks_primary (today : Int) (pf : Nat → Bool)
    (mp mo : Bool) (l : List Item) (st : RunState) :
    (process_items today pf mp mo l st).mongo_alerts_created +
        st.mysql_alerts_created =
      (process_items today pf mp mo l st).mysql_alerts_created +
        st.mongo_alerts_created := by
  induction l generalizing st with
  | nil =>
      simp only [process_items]
      omega
  | cons i rest ih =>
      have h := ih (process_item today pf mp mo st i)
      have hc := process_item_counters today pf mp mo st i
      simp only [process_items]
      rcases hc with ⟨h1, h2⟩ | ⟨h1, h2⟩ <;> omega

/-- Claim C8: the severity classifier is a total pure function of the
days remaining (it is a Lean function of `Int`) with exact boundaries
at 3/4, 7/8 and 14/15. -/
theorem c8_severity_boundaries :
    calculate_severity 3 = "CRITICAL" ∧ calculate_severity 4 = "HIGH" ∧
    calculate_severity 7 = "HIGH" ∧ calculate_severity 8 = "MEDIUM" ∧
    calculate_severity 14 = "MEDIUM" ∧ calculate_severity 15 = "LOW" := by
  refine ⟨rfl, rfl, rfl, rfl, rfl, rfl⟩

/-- Claim C10: the classifier is total on all integers: every
`days ≤ 3`, negative values (already-expired items) included, yields
`CRITICAL`; there is no failure case and no separate expired tier. -/
theorem c10_severity_total_of_le_three (d : Int) (h : d ≤ 3) :
    calculate_severity d = "CRITICAL" := by
  unfold calculate_severity
  rw [if_pos h]

/-- Witness for C10 at the already-expired input `-5`. -/
theorem c10_witness :
    (-5 : Int) ≤ 3 ∧ calculate_severity (-5) = "CRITICAL" :=
  ⟨by decide, c10_severity_total_of_le_three (-5) (by decide)⟩

/-- Claim C9: the expiry scan returns exactly the inventory items with
positive quantity whose expiry date lies in `[today, today + threshold]`
(so an item with `quantity = 0` is never returned, whatever its expiry
date); the scan is a pure function of the inventory and touches no
store. -/
theorem c9_scan_characterization (today : Int) (dt : Option Int)
    (items : List Item) (it : Item) :
    it ∈ get_expiring_items today dt items ↔
      it ∈ items ∧ it.quantity > 0 ∧ today ≤ it.expiry_date ∧
        it.expiry_date ≤ today + dt.getD EXPIRY_CHECK_DAYS := by
  unfold get_expiring_items
  simp only [List.mem_filter, Bool.and_eq_true, decide_eq_true_eq]
  tauto

/-- A list holding a row with the wanted id makes the lookup in
`acknowledge_alert` succeed. -/
theorem find?_alert_isSome_of_mem (l : List Alert) (aid : Nat)
    (h : ∃ a ∈ l, a.alert_id = aid) :
    (l.find? (fun a => a.alert_id == aid)).isSome = true := by
  cases hf : l.find? (fun a => a.alert_id == aid)
  · rcases h with ⟨a, ha, hid⟩
    have hnone := List.find?_eq_none.mp hf a ha
    exact absurd (by simp [hid]) hnone
  · rfl

/-- With primary-key-distinct ids, every row of
`set_acknowledged_first l aid` whose id is `aid` carries the flag. -/
theorem set_acknowledged_first_sets (l : List Alert) (aid : Nat)
    (hnd : (l.map Alert.alert_id).Nodup) :
    ∀ a ∈ set_acknowledged_first l aid, a.alert_id = aid →
      a.is_acknowledged = true := by
  induction l with
  | nil =>
      intro a ha
      simp [set_acknowledged_first] at ha
  | cons b rest ih =>
      rw [List.map_cons, List.nodup_cons] at hnd
      intro a ha hid
      rw [set_acknowledged_first] at ha
      by_cases hbid : (b.alert_id == aid) = true
      · rw [if_pos hbid] at ha
        rcases List.mem_cons.mp ha with rfl | ha2
        · rfl
        · exfalso
          have hmem : a.alert_id ∈ rest.map Alert.alert_id :=
            List.mem_map_of_mem Alert.alert_id ha2
          rw [hid] at hmem
          have hbeq : b.alert_id = aid := by simpa using hbid
          rw [← hbeq] at hmem
          exact hnd.1 hmem
      · rw [if_neg hbid] at ha
        rcases List.mem_cons.mp ha with rfl | ha2
        · exact absurd (by simp [hid]) hbid
        · exact ih hnd.2 a ha2 hid

/-- The first row matching the id comes out acknowledged. -/
theorem set_acknowledged_first_mem (l : List Alert) (aid : Nat)
    (h : ∃ a ∈ l, a.alert_id = aid) :
    ∃ a ∈ set_acknowledged_first l aid, a.alert_id = aid ∧
      a.is_acknowledged = true := by
  induction l with
  | nil =>
      rcases h with ⟨a, ha, _⟩
      cases ha
  | cons b rest ih =>
      rw [set_acknowledged_first]
      by_cases hbid : (b.alert_id == aid) = true
      · rw [if_pos hbid]
        exact ⟨{ b with is_acknowledged := true },
          List.mem_cons_self _ _, by simpa using hbid, rfl⟩
      · rw [if_neg hbid]
        rcases h with ⟨a, ha, hid⟩
        rcases List.mem_cons.mp ha with rfl | ha2
        · exact absurd (by simp [hid]) hbid
        · rcases ih ⟨a, ha2, hid⟩ with ⟨c, hc, hcid, hcack⟩
          exact ⟨c, List.mem_cons_of_mem _ hc, hcid, hcack⟩

/-- Claim C2: when both stores are healthy, acknowledging an existing
alert returns true, leaves the matching primary row acknowledged, and
sets the flag on every secondary document whose correlation key equals
the id — duplicated documents included (the update matches all). -/
theorem c2_acknowledge_updates_primary_and_all_docs (aid : Nat)
    (st : AckState)
    (hfound : ∃ a ∈ st.pending_alerts, a.alert_id = aid)
    (hpk : (st.pending_alerts.map Alert.alert_id).Nodup) :
    (acknowledge_alert true true aid st).1 = true ∧
    (∀ a ∈ (acknowledge_alert true true aid st).2.committed_alerts,
        a.alert_id = aid → a.is_acknowledged = true) ∧
    (∀ d ∈ (acknowledge_alert true true aid st).2.mongo_docs,
        d.alert_id = aid → d.is_acknowledged = true) := by
  unfold acknowledge_alert
  cases hf : st.pending_alerts.find? (fun a => a.alert_id == aid) with
  | none =>
      have hsome := find?_alert_isSome_of_mem st.pending_alerts aid hfound
      rw [hf] at hsome
      cases hsome
  | some a0 =>
      refine ⟨rfl, ?_, ?_⟩
      · intro a ha hid
        exact set_acknowledged_first_sets st.pending_alerts aid hpk a ha hid
      · intro d hd hid
        have hd' : d ∈ mongo_update_many_ack st.mongo_docs aid := hd
        unfold mongo_update_many_ack at hd'
        rcases List.mem_map.mp hd' with ⟨d0, hd0, rfl⟩
        by_cases h0 : (d0.alert_id == aid) = true
        · rw [if_pos h0]
        · rw [if_neg h0] at hid
          exact absurd (by simp [hid]) h0

def c2_alert : Alert :=
  { alert_id := 7, item_id := 1, message := "m", alert_date := 0,
    severity := "HIGH", is_acknowledged := false }

def c2_doc1 : MongoAlertDoc :=
  { alert_id := 7, item_id := 1, item_name := "X", message := "m",
    alert_date := 0, severity := "HIGH", days_until_expiry := 5,
    quantity := 2, category_name := "C", donor_name := "D",
    expiry_date := 5, is_acknowledged := false }

/-- A retried-mirror duplicate of `c2_doc1` with the same correlation
key. -/
def c2_doc2 : MongoAlertDoc :=
  { c2_doc1 with quantity := 3 }

def c2_st : AckState :=
  { committed_alerts := [c2_alert], pending_alerts := [c2_alert],
    mongo_docs := [c2_doc1, c2_doc2] }

/-- Witness for C2 on a store holding two duplicated documents for
alert 7. -/
theorem c2_witness :
    (∃ a ∈ c2_st.pending_alerts, a.alert_id = 7) ∧
    (c2_st.pending_alerts.map Alert.alert_id).Nodup ∧
    ((acknowledge_alert true true 7 c2_st).1 = true ∧
      (∀ a ∈ (acknowledge_alert true true 7 c2_st).2.committed_alerts,
          a.alert_id = 7 → a.is_acknowledged = true) ∧
      (∀ d ∈ (acknowledge_alert true true 7 c2_st).2.mongo_docs,
          d.alert_id = 7 → d.is_acknowledged = true)) :=
  ⟨by decide, by decide,
    c2_acknowledge_updates_primary_and_all_docs 7 c2_st (by decide)
      (by decide)⟩

def c3_alert : Alert :=
  { alert_id := 1, item_id := 1, message := "m", alert_date := 0,
    severity := "LOW", is_acknowledged := false }

def c3_doc : MongoAlertDoc :=
  { alert_id := 1, item_id := 1, item_name := "X", message := "m",
    alert_date := 0, severity := "LOW", days_until_expiry := 20,
    quantity := 1, category_name := "C", donor_name := "D",
    expiry_date := 20, is_acknowledged := false }

def c3_st : AckState :=
  { committed_alerts := [c3_alert], pending_alerts := [c3_alert],
    mongo_docs := [c3_doc] }

/-- Claim C3 counterexample: alert 1 exists in the authoritative store,
the secondary update fails (`mongo_ok = false`), and
`acknowledge_alert` returns false — not true as the claim states: the
`except` clause at tasks.py lines 259-262 catches the Mongo error and
returns False after the primary commit. -/
theorem c3_counterexample :
    (acknowledge_alert true false 1 c3_st).1 = false := by
  decide

/-- Claim C3 (amended): for every alertId present in the authoritative
store, a secondary-store failure does not undo the already-committed
primary update — the committed row stays acknowledged and the document
store is untouched — but the returned boolean becomes false. -/
theorem c3_amended_secondary_failure (mp mo : Bool) (aid : Nat)
    (st : AckState)
    (hfound : ∃ a ∈ st.pending_alerts, a.alert_id = aid)
    (hfail : (mp && mo) = false) :
    (acknowledge_alert mp mo aid st).1 = false ∧
    (∃ a ∈ (acknowledge_alert mp mo aid st).2.committed_alerts,
        a.alert_id = aid ∧ a.is_acknowledged = true) ∧
    (acknowledge_alert mp mo aid st).2.mongo_docs = st.mongo_docs := by
  unfold acknowledge_alert
  cases hf : st.pending_alerts.find? (fun a => a.alert_id == aid) with
  | none =>
      have hsome := find?_alert_isSome_of_mem st.pending_alerts aid hfound
      rw [hf] at hsome
      cases hsome
  | some a0 =>
      rw [hfail]
      exact ⟨rfl, set_acknowledged_first_mem st.pending_alerts aid hfound,
        rfl⟩

/-- Claim C4 counterexample: the statistics dictionary built at
tasks.py lines 204-210 has no `failed` and no `mirrorFailed` key — a
per-item primary failure is logged and skipped without any counter. -/
theorem c4_counterexample :
    "failed" ∉ generate_alerts_result_keys ∧
    "mirrorFailed" ∉ generate_alerts_result_keys := by
  decide

/-- Claim C4 (amended): `generate_alerts` returns exactly the counters
checked_items, mysql_alerts_created (createdPrimary),
mongo_alerts_created (createdSecondary), skipped and a timestamp — no
failed or mirrorFailed counter exists — and a per-item primary-store
failure leaves the run state untouched while the loop continues with
the remaining items. -/
theorem c4_amended_result_shape_and_continue (today : Int)
    (pf : Nat → Bool) (mp mo : Bool) (st : RunState) (p : Item)
    (rest : List Item) (hfail : pf p.item_id = true)
    (hnew : alert_exists_today st.alerts today p.item_id = false) :
    generate_alerts_result_keys =
      ["checked_items", "mysql_alerts_created", "mongo_alerts_created",
       "skipped", "timestamp"] ∧
    process_items today pf mp mo (p :: rest) st =
      process_items today pf mp mo rest st := by
  refine ⟨rfl, ?_⟩
  have h : process_item today pf mp mo st p = st := by
    unfold process_item
    rw [if_neg (by rw [hnew]; exact Bool.false_ne_true), if_pos hfail]
  simp only [process_items, h]

def c4_item : Item :=
  { item_id := 3, name := "P", quantity := 1, expiry_date := 1,
    category_name := "C", donor_name := "D" }

def c4_st : RunState :=
  { alerts := [], next_alert_id := 1, mongo_docs := [],
    mysql_alerts_created := 0, mongo_alerts_created := 0, skipped := 0 }

def c4_fail : Nat → Bool := fun n => n == 3

/-- Witness for the amended C4: item 3 fails its primary insert and the
loop just moves on. -/
theorem c4_witness :
    c4_fail c4_item.item_id = true ∧
    alert_exists_today c4_st.alerts 0 c4_item.item_id = false ∧
    (generate_alerts_result_keys =
        ["checked_items", "mysql_alerts_created", "mongo_alerts_created",
         "skipped", "timestamp"] ∧
      process_items 0 c4_fail true true (c4_item :: []) c4_st =
        process_items 0 c4_fail true true [] c4_st) :=
  ⟨by decide, by decide,
    c4_amended_result_shape_and_continue 0 c4_fail true true c4_st
      c4_item [] (by decide) (by decide)⟩

def c5_item : Item :=
  { item_id := 1, name := "X", quantity := 4, expiry_date := 2,
    category_name := "C", donor_name := "D" }

/-- Two inserts of today's alert for the same item, as produced by the
check-then-insert race of §5: both invocations pass the advisory check
on the empty table, then both commit. -/
def c5_first_insert : Alert × List Alert × Nat :=
  create_mysql_alert 0 c5_item [] 1

def c5_second_insert : Alert × List Alert × Nat :=
  create_mysql_alert 0 c5_item c5_first_insert.2.1 c5_first_insert.2.2

/-- Claim C5 counterexample: the Alert table declares no uniqueness
constraint on (item_id, alert_date) — models.py lines 157-179 have no
`__table_args__` at all — and indeed two inserts for the same
(item 1, day 0) pair both commit, leaving two rows for the pair. -/
theorem c5_counterexample :
    alert_table_unique_constraints = [] ∧
    pair_count c5_second_insert.2.1 1 0 = 2 := by
  exact ⟨rfl, rfl⟩

/-- An (item, today) pair with no row yet has pair count zero. -/
theorem pair_count_eq_zero_of_not_exists (l : List Alert) (today : Int)
    (iid : Nat) (h : alert_exists_today l today iid = false) :
    pair_count l iid today = 0 := by
  have h' : ∀ a ∈ l, ¬(a.item_id == iid && a.alert_date == today) = true := by
    intro a ha hpa
    have : alert_exists_today l today iid = true :=
      List.any_eq_true.mpr ⟨a, ha, hpa⟩
    rw [h] at this
    exact Bool.false_ne_true this
  unfold pair_count
  rw [List.length_eq_zero]
  exact List.filter_eq_nil_iff.mpr h'

/-- Appending a row matching the pair raises its count by one. -/
theorem pair_count_append_match (l : List Alert) (a : Alert) (x : Nat)
    (d : Int) (h1 : a.item_id = x) (h2 : a.alert_date = d) :
    pair_count (l ++ [a]) x d = pair_count l x d + 1 := by
  unfold pair_count
  rw [List.filter_append, List.length_append]
  simp [List.filter_cons, h1, h2]

/-- Appending a row of another pair leaves the count unchanged. -/
theorem pair_count_append_nomatch (l : List Alert) (a : Alert) (x : Nat)
    (d : Int) (h : ¬(a.item_id = x ∧ a.alert_date = d)) :
    pair_count (l ++ [a]) x d = pair_count l x d := by
  have hp : (a.item_id == x && a.alert_date == d) = false := by
    by_cases h1 : a.item_id = x
    · have h2 : a.alert_date ≠ d := fun h2 => h ⟨h1, h2⟩
      simp [h1, h2]
    · simp [h1]
  unfold pair_count
  rw [List.filter_append, List.length_append]
  simp [List.filter_cons, hp]

/-- One loop iteration keeps every (item, date) pair at one row at
most: the only insert happens after the advisory check found no row
for that pair. -/
theorem process_item_pair_bound (today : Int) (pf : Nat → Bool)
    (mp mo : Bool) (st : RunState) (i : Item)
    (hinv : ∀ x d, pair_count st.alerts x d ≤ 1) :
    ∀ x d, pair_count (process_item today pf mp mo st i).alerts x d
      ≤ 1 := by
  intro x d
  cases hex : alert_exists_today st.alerts today i.item_id
  · unfold process_item
    rw [if_neg (by rw [hex]; exact Bool.false_ne_true)]
    by_cases hpf : pf i.item_id = true
    · rw [if_pos hpf]
      exact hinv x d
    · rw [if_neg hpf]
      simp only [create_mysql_alert]
      by_cases hx : i.item_id = x ∧ today = d
      · obtain ⟨hx1, hx2⟩ := hx
        subst hx1
        subst hx2
        rw [pair_count_append_match _ _ _ _ rfl rfl,
          pair_count_eq_zero_of_not_exists st.alerts today i.item_id hex]
      · rw [pair_count_append_nomatch _ _ _ _ hx]
        exact hinv x d
  · unfold process_item
    rw [if_pos hex]
    exact hinv x d

/-- The whole loop keeps every pair at one row at most. -/
theorem process_items_pair_bound (today : Int) (pf : Nat → Bool)
    (mp mo : Bool) (l : List Item) (st : RunState)
    (hinv : ∀ x d, pair_count st.alerts x d ≤ 1) :
    ∀ x d, pair_count (process_items today pf mp mo l st).alerts x d
      ≤ 1 := by
  induction l generalizing st with
  | nil => exact hinv
  | cons i rest ih =>
      exact ih _ (process_item_pair_bound today pf mp mo st i hinv)

/-- Claim C5 (amended): nothing in the store enforces uniqueness of
(item_id, alert_date); within a single sequential run the advisory
`alert_exists_today` check alone keeps every pair at one row at most,
but nothing rejects a racing concurrent insert. -/
theorem c5_amended_sequential_uniqueness (today : Int) (dt : Option Int)
    (pf : Nat → Bool) (mp mo : Bool) (db : MySQLState)
    (docs : List MongoAlertDoc)
    (hinv : ∀ x d, pair_count db.alerts x d ≤ 1) :
    ∀ x d, pair_count
      (generate_alerts today dt pf mp mo db docs).2.1.alerts x d ≤ 1 :=
  fun x d =>
    process_items_pair_bound today pf mp mo
      (get_expiring_items today dt db.items) _ hinv x d

def c5_db0 : MySQLState :=
  { items := [c5_item], alerts := [], next_alert_id := 1 }

/-- Witness for the amended C5: a run over the empty table keeps the
pair (1, 0) at one row at most. -/
theorem c5_witness :
    (∀ x d, pair_count c5_db0.alerts x d ≤ 1) ∧
    pair_count (generate_alerts 0 (some 30) (fun _ => false) true true
      c5_db0 []).2.1.alerts 1 0 ≤ 1 :=
  ⟨fun _ _ => Nat.zero_le 1,
    c5_amended_sequential_uniqueness 0 (some 30) (fun _ => false) true
      true c5_db0 [] (fun _ _ => Nat.zero_le 1) 1 0⟩

/-- The scan returns a sublist of the inventory. -/
theorem get_expiring_items_sublist (today : Int) (dt : Option Int)
    (items : List Item) :
    (get_expiring_items today dt items).Sublist items := by
  unfold get_expiring_items
  exact List.filter_sublist _

/-- When every scanned item already has today's alert, the loop only
counts skips: the state is unchanged apart from `skipped` growing by
the list length. -/
theorem process_items_all_exist (today : Int) (pf : Nat → Bool)
    (mp mo : Bool) (l : List Item) :
    ∀ st : RunState,
      (∀ i ∈ l, alert_exists_today st.alerts today i.item_id = true) →
      process_items today pf mp mo l st =
        { st with skipped := st.skipped + l.length } := by
  induction l with
  | nil => intro st _; rfl
  | cons i rest ih =>
      intro st h
      have hi := h i (List.mem_cons_self i rest)
      have hstep : process_item today pf mp mo st i =
          { st with skipped := st.skipped + 1 } := by
        unfold process_item
        rw [if_pos hi]
      simp only [process_items, hstep]
      rw [ih { st with skipped := st.skipped + 1 }
        (fun j hj => h j (List.mem_cons_of_mem i hj))]
      simp only [List.length_cons]
      congr 1
      omega

/-- The create branch in one loop iteration: the new row is appended,
the primary counter bumps, the skip counter does not move. -/
theorem process_item_create (today : Int) (pf : Nat → Bool)
    (mp mo : Bool) (st : RunState) (i : Item)
    (hex : alert_exists_today st.alerts today i.item_id = false)
    (hpf : pf i.item_id = false) :
    (process_item today pf mp mo st i).alerts = st.alerts ++
        [(create_mysql_alert today i st.alerts st.next_alert_id).1] ∧
    (process_item today pf mp mo st i).mysql_alerts_created =
        st.mysql_alerts_created + 1 ∧
    (process_item today pf mp mo st i).skipped = st.skipped := by
  unfold process_item
  rw [if_neg (by rw [hex]; exact Bool.false_ne_true),
    if_neg (by rw [hpf]; exact Bool.false_ne_true)]
  refine ⟨?_, rfl, rfl⟩
  simp [create_mysql_alert]

/-- A healthy first run over distinct items none of which has today's
alert yet creates one alert per scanned item and skips nothing. -/
theorem process_items_fresh_counts (today : Int) (mp mo : Bool)
    (l : List Item) :
    ∀ st : RunState, (l.map Item.item_id).Nodup →
      (∀ a ∈ st.alerts, a.alert_date = today →
        a.item_id ∉ l.map Item.item_id) →
      (process_items today (fun _ => false) mp mo l
          st).mysql_alerts_created = st.mysql_alerts_created + l.length ∧
      (process_items today (fun _ => false) mp mo l st).skipped =
        st.skipped := by
  induction l with
  | nil => intro st _ _; exact ⟨rfl, rfl⟩
  | cons i rest ih =>
      intro st hnd hfresh
      rw [List.map_cons, List.nodup_cons] at hnd
      have hex : alert_exists_today st.alerts today i.item_id = false := by
        cases hb : alert_exists_today st.alerts today i.item_id
        · rfl
        · exfalso
          rcases List.any_eq_true.mp hb with ⟨a, ha, hp⟩
          rw [Bool.and_eq_true] at hp
          obtain ⟨h1, h2⟩ := hp
          refine hfresh a ha (by simpa using h2) ?_
          rw [List.map_cons]
          exact List.mem_cons.mpr (Or.inl (by simpa using h1))
      obtain ⟨hal, hmy, hsk⟩ :=
        process_item_create today (fun _ => false) mp mo st i hex rfl
      have hfresh' : ∀ a ∈
          (process_item today (fun _ => false) mp mo st i).alerts,
          a.alert_date = today → a.item_id ∉ rest.map Item.item_id := by
        intro a ha hdate
        rw [hal] at ha
        rcases List.mem_append.mp ha with ha1 | ha2
        · have hn := hfresh a ha1 hdate
          rw [List.map_cons] at hn
          exact fun hmem => hn (List.mem_cons_of_mem _ hmem)
        · have ha3 : a =
              (create_mysql_alert today i st.alerts st.next_alert_id).1 := by
            simpa using ha2
          rw [ha3]
          exact hnd.1
      obtain ⟨ih1, ih2⟩ :=
        ih (process_item today (fun _ => false) mp mo st i) hnd.2 hfresh'
      constructor
      · simp only [process_items]
        rw [ih1, hmy, List.length_cons]
        omega
      · simp only [process_items]
        rw [ih2, hsk]

/-- Claim C6: with distinct item ids, no alert dated today yet, and a
healthy primary store, a second `generate_alerts` run on the same day
creates nothing and skips exactly as many items as the first run
created. -/
theorem c6_idempotent_second_run (today : Int) (dt : Option Int)
    (mp mo mp2 mo2 : Bool) (db : MySQLState) (docs : List MongoAlertDoc)
    (hids : (db.items.map Item.item_id).Nodup)
    (hclean : ∀ a ∈ db.alerts, a.alert_date ≠ today) :
    (generate_alerts today dt (fun _ => false) mp2 mo2
        (generate_alerts today dt (fun _ => false) mp mo db docs).2.1
        (generate_alerts today dt (fun _ => false) mp mo db
          docs).2.2).1.mysql_alerts_created = 0 ∧
    (generate_alerts today dt (fun _ => false) mp2 mo2
        (generate_alerts today dt (fun _ => false) mp mo db docs).2.1
        (generate_alerts today dt (fun _ => false) mp mo db
          docs).2.2).1.skipped =
      (generate_alerts today dt (fun _ => false) mp mo db
        docs).1.mysql_alerts_created := by
  have hndl : ((get_expiring_items today dt db.items).map
      Item.item_id).Nodup :=
    List.Nodup.sublist
      (List.Sublist.map _ (get_expiring_items_sublist today dt db.items))
      hids
  have hcounts := process_items_fresh_counts today mp mo
    (get_expiring_items today dt db.items)
    { alerts := db.alerts, next_alert_id := db.next_alert_id,
      mongo_docs := docs, mysql_alerts_created := 0,
      mongo_alerts_created := 0, skipped := 0 }
    hndl (fun a ha hdate => absurd hdate (hclean a ha))
  have hall : ∀ i ∈ get_expiring_items today dt db.items,
      alert_exists_today
        (generate_alerts today dt (fun _ => false) mp mo db
          docs).2.1.alerts today i.item_id = true :=
    fun i hi =>
      process_items_covers today (fun _ => false) mp mo
        (get_expiring_items today dt db.items)
        { alerts := db.alerts, next_alert_id := db.next_alert_id,
          mongo_docs := docs, mysql_alerts_created := 0,
          mongo_alerts_created := 0, skipped := 0 } i hi rfl
  have hrun2 := process_items_all_exist today (fun _ => false) mp2 mo2
    (get_expiring_items today dt db.items)
    { alerts :=
        (generate_alerts today dt (fun _ => false) mp mo db
          docs).2.1.alerts,
      next_alert_id :=
        (generate_alerts today dt (fun _ => false) mp mo db
          docs).2.1.next_alert_id,
      mongo_docs :=
        (generate_alerts today dt (fun _ => false) mp mo db docs).2.2,
      mysql_alerts_created := 0, mongo_alerts_created := 0,
      skipped := 0 } hall
  constructor
  · exact (congrArg RunState.mysql_alerts_created hrun2).trans rfl
  · exact (congrArg RunState.skipped hrun2).trans hcounts.1.symm

def c6_item1 : Item :=
  { item_id := 1, name := "A", quantity := 2, expiry_date := 3,
    category_name := "C", donor_name := "D" }

def c6_item2 : Item :=
  { item_id := 2, name := "B", quantity := 4, expiry_date := 9,
    category_name := "C", donor_name := "D" }

def c6_db : MySQLState :=
  { items := [c6_item1, c6_item2], alerts := [], next_alert_id := 1 }

/-- Witness for C6 on a clean two-item inventory. -/
theorem c6_witness :
    (c6_db.items.map Item.item_id).Nodup ∧
    (∀ a ∈ c6_db.alerts, a.alert_date ≠ 0) ∧
    ((generate_alerts 0 (some 30) (fun _ => false) true true
        (generate_alerts 0 (some 30) (fun _ => false) true true c6_db
          []).2.1
        (generate_alerts 0 (some 30) (fun _ => false) true true c6_db
          []).2.2).1.mysql_alerts_created = 0 ∧
      (generate_alerts 0 (some 30) (fun _ => false) true true
        (generate_alerts 0 (some 30) (fun _ => false) true true c6_db
          []).2.1
        (generate_alerts 0 (some 30) (fun _ => false) true true c6_db
          []).2.2).1.skipped =
        (generate_alerts 0 (some 30) (fun _ => false) true true c6_db
          []).1.mysql_alerts_created) :=
  ⟨by decide, fun a ha => absurd ha (List.not_mem_nil a),
    c6_idempotent_second_run 0 (some 30) true true true true c6_db []
      (by decide) (fun a ha => absurd ha (List.not_mem_nil a))⟩

/-- Witness for the amended C3 at the concrete failing store. -/
theorem c3_witness :
    (∃ a ∈ c3_st.pending_alerts, a.alert_id = 1) ∧
    (true && false) = false ∧
    ((acknowledge_alert true false 1 c3_st).1 = false ∧
      (∃ a ∈ (acknowledge_alert true false 1 c3_st).2.committed_alerts,
          a.alert_id = 1 ∧ a.is_acknowledged = true) ∧
      (acknowledge_alert true false 1 c3_st).2.mongo_docs =
        c3_st.mongo_docs) :=
  ⟨by decide, by decide,
    c3_amended_secondary_failure true false 1 c3_st (by decide)
      (by decide)⟩

end SmartExpiry
